import Mathlib

/-!
Verification development for the Electron/Python scaffold of BT_Electron.

The definitions below are a shallow embedding of the two protocol-relevant
source files: the preload boundary (`contextBridge.exposeInMainWorld` with the
channel whitelist) and the main-process `PythonService` together with the
registered `ipcMain.handle` handlers.  Stateful behaviour of the service is
embedded as a step function over an explicit state, driven by the events the
Node event loop can deliver (IPC calls, worker stdout data, worker close,
mock-response timers).  Fallible code is embedded with `Except`; JavaScript
objects are embedded as a small inductive value type.
-/

/-- Embedding of the JavaScript values that flow through the IPC handlers.
Numbers are restricted to integers, which is exact for every number the
embedded code ever constructs (sizes, counts, row totals). -/
inductive JsValue where
  | null
  | bool (b : Bool)
  | num (n : Int)
  | str (s : String)
  | arr (elems : List JsValue)
  | obj (fields : List (String × JsValue))

/-- Property-style field lookup on an embedded object: the first binding of
the key, as produced by a JavaScript object literal. -/
def JsValue.getField : JsValue → String → Option JsValue
  | .obj fields, k => fields.lookup k
  | _, _ => none

/-- JavaScript truthiness on embedded values (`NaN` does not arise because the
embedding only builds integer numbers). -/
def jsTruthy : JsValue → Bool
  | .null => false
  | .bool b => b
  | .num n => n ≠ 0
  | .str s => s ≠ ""
  | .arr _ => true
  | .obj _ => true

/-- Result type of a `JSON.parse` call: numbers keep their raw lexeme, since
the stdout handler never computes with a parsed number. -/
inductive JsonVal where
  | jnull
  | jbool (b : Bool)
  | jnum (raw : String)
  | jstr (s : String)
  | jarr (elems : List JsonVal)
  | jobj (members : List (String × JsonVal))

/-- Whitespace accepted between JSON tokens (`JSON.parse` grammar). -/
def isJsonWs (c : Char) : Bool :=
  c = ' ' || c = '\t' || c = '\n' || c = '\r'

/-- Skip leading JSON whitespace. -/
def jsonSkipWs : List Char → List Char
  | [] => []
  | c :: cs => if isJsonWs c then jsonSkipWs cs else c :: cs

/-- Value of a hexadecimal digit, if any. -/
def jsonHexVal (c : Char) : Option Nat :=
  if '0' ≤ c ∧ c ≤ '9' then some (c.toNat - '0'.toNat)
  else if 'a' ≤ c ∧ c ≤ 'f' then some (c.toNat - 'a'.toNat + 10)
  else if 'A' ≤ c ∧ c ≤ 'F' then some (c.toNat - 'A'.toNat + 10)
  else none

/-- Parse the body of a JSON string literal (the opening quote is already
consumed); returns the decoded string and the rest of the input. -/
def jsonParseStr (fuel : Nat) (cs : List Char) (acc : List Char) :
    Option (String × List Char) :=
  match fuel, cs with
  | 0, _ => none
  | _, [] => none
  | f + 1, c :: cs =>
    if c = '"' then some (String.mk acc.reverse, cs)
    else if c = '\\' then
      match cs with
      | [] => none
      | e :: cs' =>
        if e = '"' then jsonParseStr f cs' ('"' :: acc)
        else if e = '\\' then jsonParseStr f cs' ('\\' :: acc)
        else if e = '/' then jsonParseStr f cs' ('/' :: acc)
        else if e = 'n' then jsonParseStr f cs' ('\n' :: acc)
        else if e = 't' then jsonParseStr f cs' ('\t' :: acc)
        else if e = 'r' then jsonParseStr f cs' ('\r' :: acc)
        else if e = 'b' then jsonParseStr f cs' (Char.ofNat 8 :: acc)
        else if e = 'f' then jsonParseStr f cs' (Char.ofNat 12 :: acc)
        else if e = 'u' then
          match cs' with
          | a :: b :: c2 :: d :: cs'' =>
            match jsonHexVal a, jsonHexVal b, jsonHexVal c2, jsonHexVal d with
            | some ha, some hb, some hc, some hd =>
                jsonParseStr f cs''
                  (Char.ofNat (((ha * 16 + hb) * 16 + hc) * 16 + hd) :: acc)
            | _, _, _, _ => none
          | _ => none
        else none
    else jsonParseStr f cs (c :: acc)

/-- Longest prefix of decimal digits together with the rest of the input. -/
def jsonTakeDigits : List Char → List Char × List Char
  | [] => ([], [])
  | c :: cs =>
    if c.isDigit then
      let (d, r) := jsonTakeDigits cs
      (c :: d, r)
    else ([], c :: cs)

/-- Parse an optional exponent part after the mantissa `mant`. -/
def jsonParseExpPart (mant : List Char) (cs : List Char) :
    Option (JsonVal × List Char) :=
  match cs with
  | [] => some (.jnum (String.mk mant), [])
  | c :: r =>
    if c = 'e' ∨ c = 'E' then
      let (sgn, r1) :=
        match r with
        | s :: r' => if s = '+' ∨ s = '-' then ([s], r') else (([] : List Char), r)
        | [] => ([], [])
      let (d, r2) := jsonTakeDigits r1
      if d = [] then some (.jnum (String.mk mant), c :: r)
      else some (.jnum (String.mk (mant ++ [c] ++ sgn ++ d)), r2)
    else some (.jnum (String.mk mant), c :: r)

/-- Parse an optional fraction part, then the exponent. -/
def jsonParseFracExp (intPart : List Char) (cs : List Char) :
    Option (JsonVal × List Char) :=
  match cs with
  | '.' :: r =>
    let (d, r2) := jsonTakeDigits r
    if d = [] then jsonParseExpPart intPart ('.' :: r)
    else jsonParseExpPart (intPart ++ '.' :: d) r2
  | _ => jsonParseExpPart intPart cs

/-- Parse a JSON number at the head of the input. -/
def jsonParseNum (cs : List Char) : Option (JsonVal × List Char) :=
  let (sign, cs1) :=
    match cs with
    | '-' :: r => (['-'], r)
    | _ => (([] : List Char), cs)
  match cs1 with
  | [] => none
  | c :: r =>
    if c = '0' then jsonParseFracExp (sign ++ ['0']) r
    else if c.isDigit then
      let (d, r2) := jsonTakeDigits (c :: r)
      jsonParseFracExp (sign ++ d) r2
    else none

mutual

/-- Parse one JSON value at the head of the input. -/
def jsonParseVal : Nat → List Char → Option (JsonVal × List Char)
  | 0, _ => none
  | f + 1, cs =>
    match jsonSkipWs cs with
    | '{' :: rest =>
      match jsonSkipWs rest with
      | '}' :: r => some (.jobj [], r)
      | rest' => jsonParseMembers f rest' []
    | '[' :: rest =>
      match jsonSkipWs rest with
      | ']' :: r => some (.jarr [], r)
      | rest' => jsonParseElems f rest' []
    | '"' :: rest =>
      match jsonParseStr (rest.length + 1) rest [] with
      | some (s, r) => some (.jstr s, r)
      | none => none
    | 't' :: 'r' :: 'u' :: 'e' :: rest => some (.jbool true, rest)
    | 'f' :: 'a' :: 'l' :: 's' :: 'e' :: rest => some (.jbool false, rest)
    | 'n' :: 'u' :: 'l' :: 'l' :: rest => some (.jnull, rest)
    | cs' => jsonParseNum cs'

/-- Parse the members of a JSON object (input positioned at a key). -/
def jsonParseMembers : Nat → List Char → List (String × JsonVal) →
    Option (JsonVal × List Char)
  | 0, _, _ => none
  | f + 1, cs, acc =>
    match jsonSkipWs cs with
    | '"' :: rest =>
      match jsonParseStr (rest.length + 1) rest [] with
      | none => none
      | some (k, r1) =>
        match jsonSkipWs r1 with
        | ':' :: r2 =>
          match jsonParseVal f r2 with
          | none => none
          | some (v, r3) =>
            match jsonSkipWs r3 with
            | ',' :: r4 => jsonParseMembers f r4 (acc ++ [(k, v)])
            | '}' :: r4 => some (.jobj (acc ++ [(k, v)]), r4)
            | _ => none
        | _ => none
    | _ => none

/-- Parse the elements of a JSON array (input positioned at an element). -/
def jsonParseElems : Nat → List Char → List JsonVal →
    Option (JsonVal × List Char)
  | 0, _, _ => none
  | f + 1, cs, acc =>
    match jsonParseVal f cs with
    | none => none
    | some (v, r) =>
      match jsonSkipWs r with
      | ',' :: r2 => jsonParseElems f r2 (acc ++ [v])
      | ']' :: r2 => some (.jarr (acc ++ [v]), r2)
      | _ => none

end

/-- Embedding of `JSON.parse(s)` as used by the stdout handler: `some` when
the whole string is one JSON document, `none` when parsing throws. -/
def jsonParse (s : String) : Option JsonVal :=
  match jsonParseVal (2 * s.length + 2) s.data with
  | some (v, rest) => if jsonSkipWs rest = [] then some v else none
  | none => none


/-!
Preload boundary (source: the `contextBridge.exposeInMainWorld` object).
-/

/-- The fixed channel whitelist of `electronAPI.invoke`. -/
def validChannels : List String :=
  ["health-check",
   "open-file-dialog",
   "preview-file",
   "import-data",
   "run-backtest",
   "get-strategies",
   "save-strategy",
   "get-price-data",
   "get-backtest-results"]

/-- The externally visible actions the renderer-side `invoke` can perform:
its only effect is forwarding the call over `ipcRenderer.invoke`. -/
inductive RendererEffect where
  | ipcForward (channel : String) (data : JsValue)

namespace ElectronAPI

/-- Embedding of `electronAPI.invoke(channel, data)`: the effects it performs
and its outcome — `ok` when the call is forwarded to the host process,
`error` for the synchronous `throw new Error(...)` on a non-whitelisted
channel. -/
def invoke (channel : String) (data : JsValue) :
    List RendererEffect × Except String Unit :=
  if channel ∈ validChannels then
    ([.ipcForward channel data], .ok ())
  else
    ([], .error ("Invalid channel: " ++ channel))

end ElectronAPI

/-!
Main-process `PythonService`, embedded as a state machine over the events the
Node event loop delivers to it.
-/

namespace PythonService

/-- The fixed object the stub `sendToPython` resolves every call with
(100 ms after the request is written). -/
def mockResponse (action : String) : JsValue :=
  .obj [("status", .str "ok"),
        ("message", .str "Request sent to Python backend"),
        ("action", .str action),
        ("python_alive", .bool true)]

/-- State of the promise returned by one `sendToPython` call. -/
inductive PromState where
  | pending
  | resolvedP (v : JsValue)
  | rejectedP (msg : String)

/-- One `sendToPython` call: an index identifying its promise, the action it
was invoked with, and the current state of its promise. -/
structure Pending where
  pid : Nat
  action : String
  st : PromState

/-- State of the service: the single `pythonProcess` handle field (spawned
process handles are numbered), plus the promises of the issued calls. -/
structure State where
  pythonProcess : Option Nat
  nextHandle : Nat
  calls : List Pending
  nextCall : Nat

/-- Initial state: no worker spawned, no calls issued. -/
def initState : State := ⟨none, 0, [], 0⟩

/-- Events the event loop can deliver to the service. -/
inductive Event where
  | appReady
  | send (action : String)
  | stdoutData (chunk : String)
  | closeEvt (code : Int)
  | timer (pid : Nat)
  | stopEvt
deriving DecidableEq

/-- Whether an event is the worker close event. -/
def Event.isClose : Event → Bool
  | .closeEvt _ => true
  | _ => false

/-- Whether an event is an explicit service stop. -/
def Event.isStop : Event → Bool
  | .stopEvt => true
  | _ => false

/-- Externally observable actions of one step of the service. -/
inductive Effect where
  | spawnProc (h : Nat)
  | stdinWrite (h : Nat) (action : String)
  | logResponse (chunk : String)
  | logDiagnostic (chunk : String)
  | logClose (code : Int)
  | killProc (h : Nat)
deriving DecidableEq

/-- The closure `setTimeout(() => resolve({status:'ok', ...}), 100)` of call
`pid` fires: a still-pending promise resolves with the mock object. -/
def fireTimer (pid : Nat) (p : Pending) : Pending :=
  match p.st with
  | .pending =>
      if p.pid = pid then { p with st := .resolvedP (mockResponse p.action) }
      else p
  | _ => p

/-- One step of the service.
`appReady` runs `start()`, which spawns unconditionally and overwrites the
handle. `send` is a `sendToPython` invocation: it first ensures a live
process (`if (!this.pythonProcess) await this.start()`), writes the request
to stdin and registers the promise that the 100 ms timer will resolve.
`stdoutData` is the stdout data handler: `JSON.parse` then log, falling back
to a plain diagnostic log when parsing throws. `closeEvt` is the close
handler: it only clears the handle. `stopEvt` kills a live process. -/
def step (s : State) (e : Event) : State × List Effect :=
  match e with
  | .appReady =>
      ({ s with pythonProcess := some s.nextHandle, nextHandle := s.nextHandle + 1 },
       [.spawnProc s.nextHandle])
  | .send a =>
      match s.pythonProcess with
      | some h =>
          ({ s with calls := s.calls ++ [⟨s.nextCall, a, .pending⟩],
                    nextCall := s.nextCall + 1 },
           [.stdinWrite h a])
      | none =>
          ({ s with pythonProcess := some s.nextHandle,
                    nextHandle := s.nextHandle + 1,
                    calls := s.calls ++ [⟨s.nextCall, a, .pending⟩],
                    nextCall := s.nextCall + 1 },
           [.spawnProc s.nextHandle, .stdinWrite s.nextHandle a])
  | .stdoutData chunk =>
      (s,
       [match jsonParse chunk with
        | some _ => .logResponse chunk
        | none => .logDiagnostic chunk])
  | .closeEvt code =>
      ({ s with pythonProcess := none }, [.logClose code])
  | .timer pid =>
      ({ s with calls := s.calls.map (fireTimer pid) }, [])
  | .stopEvt =>
      match s.pythonProcess with
      | some h => ({ s with pythonProcess := none }, [.killProc h])
      | none => (s, [])

/-- Run a list of events from a state, collecting the effects. -/
def run (s : State) : List Event → State × List Effect
  | [] => (s, [])
  | e :: rest =>
      ((run (step s e).1 rest).1, (step s e).2 ++ (run (step s e).1 rest).2)

/-- The check the `start()` promise performs when its 1000 ms timer fires:
resolve `true` if the handle is still live, otherwise reject. -/
def startCheck (s : State) : Except String Bool :=
  match s.pythonProcess with
  | some _ => .ok true
  | none => .error "Failed to start Python process"

/-- Result of the promise returned by the stub `sendToPython`, given the
outcome `ensure` of the ensure-started step: on success it is always the
mock object for the requested action. -/
def sendToPythonResult (ensure : Except String Unit) (action : String) :
    Except String JsValue :=
  match ensure with
  | .ok _ => .ok (mockResponse action)
  | .error m => .error m

end PythonService

/-!
Embedding of the registered `ipcMain.handle` handlers.  Each handler wraps
its whole body in try/catch and returns an object, so the promise given to
the renderer is modelled by `Outcome`.
-/

/-- Outcome of an invoked host-side handler: the promise either resolves with
a value or rejects with a message. -/
inductive Outcome where
  | resolved (v : JsValue)
  | rejected (msg : String)

/-- The `{error: message}` object the catch blocks return. -/
def errObj (m : String) : JsValue :=
  .obj [("error", .str m)]

/-- Whitespace removed by `String.prototype.trim`. -/
def isJsWs (c : Char) : Bool :=
  c = ' ' || c = '\t' || c = '\n' || c = '\r' ||
  c = Char.ofNat 11 || c = Char.ofNat 12

/-- `trim()` on the character list of a string. -/
def jsTrimList (cs : List Char) : List Char :=
  ((cs.dropWhile isJsWs).reverse.dropWhile isJsWs).reverse

/-- Embedding of `s.trim()`. -/
def jsTrim (s : String) : String :=
  String.mk (jsTrimList s.data)

/-- Split a character list on a separator character (no separator kept). -/
def splitCharList (sep : Char) : List Char → List (List Char)
  | [] => [[]]
  | c :: cs =>
    let r := splitCharList sep cs
    if c = sep then [] :: r
    else
      match r with
      | hd :: tl => (c :: hd) :: tl
      | [] => [[c]]

/-- Embedding of `s.split(sep)` for a one-character separator. -/
def jsSplit (sep : Char) (s : String) : List String :=
  (splitCharList sep s.data).map String.mk

/-- One CSV cell as the handler cleans it: `val.trim().replace(/"/g, '')`. -/
def cleanCell (s : String) : String :=
  String.mk ((jsTrimList s.data).filter (fun c => c ≠ '"'))

/-- One line split into cleaned cells: `line.split(',').map(...)`. -/
def parseCsvLine (l : String) : List String :=
  (jsSplit ',' l).map cleanCell

/-- The handler's line extraction:
`fileContent.split('\n').filter(line => line.trim())`. -/
def splitContentLines (content : String) : List String :=
  (jsSplit '\n' content).filter (fun l => jsTrim l ≠ "")

/-- `row[col] = v` on a JavaScript object under construction: overwrite the
binding if the key exists, otherwise append it. -/
def jsObjSet : List (String × String) → String → String → List (String × String)
  | [], k, v => [(k, v)]
  | (k', v') :: rest, k, v =>
    if k' = k then (k, v) :: rest
    else (k', v') :: jsObjSet rest k v

/-- The row object built by
`columns.forEach((col, index) => row[col] = values[index] || '')`. -/
def mkRow (columns : List String) (values : List String) :
    List (String × String) :=
  columns.enum.foldl (fun row ic => jsObjSet row ic.2 (values.getD ic.1 "")) []

/-- A finished row as the JavaScript object sent back to the renderer. -/
def rowToJs (row : List (String × String)) : JsValue :=
  .obj (row.map (fun kv => (kv.1, .str kv.2)))

/-- The success object of the preview handler. -/
def previewObj (preview : List JsValue) (columns : List String)
    (rowsTotal : Nat) : JsValue :=
  .obj [("preview", .arr preview),
        ("columns", .arr (columns.map .str)),
        ("rows_total", .num (rowsTotal : Int))]

/-- Body of the `preview-file` handler (the part inside `try`), over a model
`fs` of the filesystem mapping a path to its content when the file exists.
`filePath` is the destructured `data.filePath`; the empty string is falsy in
the `if (!filePath)` check.  In the success branch, `body` is the list of
data lines, so `body.length = lines.length - 1`, and
`min 10 body.length` is `Math.min(10, lines.length - 1)`. -/
def previewBody (fs : String → Option String) (filePath : Option String) :
    Except String JsValue :=
  match filePath with
  | none => .error "No file path provided"
  | some p =>
    if p = "" then .error "No file path provided"
    else
      match fs p with
      | none => .error "File does not exist"
      | some content =>
        match splitContentLines content with
        | [] => .error "File is empty"
        | hdr :: body =>
          .ok (previewObj
            ((body.take (min 10 body.length)).map
              (fun l => rowToJs (mkRow (parseCsvLine hdr) (parseCsvLine l))))
            (parseCsvLine hdr)
            body.length)

/-- The registered `preview-file` handler: the body in try/catch, the catch
returning `{error: message}`. -/
def previewFileHandler (fs : String → Option String)
    (filePath : Option String) : Outcome :=
  .resolved
    (match previewBody fs filePath with
     | .ok v => v
     | .error m => errObj m)

/-- Body of the `health-check` handler: the mock python health response, then
the storage checks.  `dbExists` models `fs.existsSync(dbPath)` and `stat`
models `fs.statSync(dbPath).size`, which can throw. -/
def healthBody (ensure : Except String Unit) (dbExists : Bool)
    (stat : Except String Int) (now version dbPath : String) :
    Except String JsValue :=
  match PythonService.sendToPythonResult ensure "health-check" with
  | .error m => .error m
  | .ok pythonHealth =>
    match (if dbExists then stat else .ok 0) with
    | .error m => .error m
    | .ok dbSize =>
      .ok (.obj
        [("status", .str "ok"),
         ("database", .str (if dbExists then "connected" else "created")),
         ("timestamp", .str now),
         ("version", .str version),
         ("python_backend", pythonHealth),
         ("electron_main", .obj [("ok", .bool true), ("from", .str "main")]),
         ("database_info",
          .obj [("path", .str dbPath),
                ("exists", .bool dbExists),
                ("size", .num dbSize)])])

/-- The `{status:'error', ...}` object of the `health-check` catch block. -/
def healthErrObj (m now version : String) : JsValue :=
  .obj [("status", .str "error"),
        ("timestamp", .str now),
        ("version", .str version),
        ("error", .str m)]

/-- The registered `health-check` handler. -/
def healthCheckHandler (ensure : Except String Unit) (dbExists : Bool)
    (stat : Except String Int) (now version dbPath : String) : Outcome :=
  .resolved
    (match healthBody ensure dbExists stat now version dbPath with
     | .ok v => v
     | .error m => healthErrObj m now version)

/-- The registered `ping-python` handler:
`await sendToPython('ping')` in try/catch. -/
def pingPythonHandler (ensure : Except String Unit) : Outcome :=
  .resolved
    (match PythonService.sendToPythonResult ensure "ping" with
     | .ok v => v
     | .error m => errObj m)

/-- Rendering of an embedded value when it is thrown as an error message
(only reachable when the worker reply carries a truthy `error` field). -/
def jsDisplay : JsValue → String
  | .str s => s
  | .bool true => "true"
  | .bool false => "false"
  | .num n => toString n
  | .null => "null"
  | .arr _ => ""
  | .obj _ => "[object Object]"

/-- Body of the `import-data` handler: path checks, then the delegated
worker call, then the `result.error` check and the summary object
(`result.rows_imported || 0` on the mock reply is `0` since the field is
absent). -/
def importBody (ensure : Except String Unit) (fs : String → Option String)
    (filePath : Option String) (symbol : JsValue) : Except String JsValue :=
  match filePath with
  | none => .error "No file path provided"
  | some p =>
    if p = "" then .error "No file path provided"
    else
      match fs p with
      | none => .error "File does not exist"
      | some _ =>
        match PythonService.sendToPythonResult ensure "import-data" with
        | .error m => .error m
        | .ok result =>
          match result.getField "error" with
          | some e =>
            if jsTruthy e then .error (jsDisplay e)
            else
              .ok (.obj [("success", .bool true),
                         ("rowsImported",
                          match result.getField "rows_imported" with
                          | some v => if jsTruthy v then v else .num 0
                          | none => .num 0),
                         ("symbol", symbol)])
          | none =>
            .ok (.obj [("success", .bool true),
                       ("rowsImported",
                        match result.getField "rows_imported" with
                        | some v => if jsTruthy v then v else .num 0
                        | none => .num 0),
                       ("symbol", symbol)])

/-- The registered `import-data` handler. -/
def importDataHandler (ensure : Except String Unit)
    (fs : String → Option String) (filePath : Option String)
    (symbol : JsValue) : Outcome :=
  .resolved
    (match importBody ensure fs filePath symbol with
     | .ok v => v
     | .error m => errObj m)

/-!
Concrete inputs used to exercise the definitions.
-/

/-- An eleven-line comma-separated file with a header line. -/
def demoCsv : String :=
  "a,b\n1,2\n3,4\n5,6\n7,8\n9,10\n11,12\n13,14\n15,16\n17,18\n19,20"

/-- The ten data lines of `demoCsv`. -/
def demoCsvRest : List String :=
  ["1,2", "3,4", "5,6", "7,8", "9,10", "11,12", "13,14", "15,16", "17,18", "19,20"]

/-- A filesystem with exactly one file, `data.csv`, holding `demoCsv`. -/
def demoFs : String → Option String :=
  fun q => if q = "data.csv" then some demoCsv else none

/-- Two concurrent calls, two worker response frames carrying distinct
payloads arriving between them, then the two mock timers. -/
def demoTrace : List PythonService.Event :=
  [.appReady, .send "a", .send "b",
   .stdoutData "[0, \"payload-a\"]", .stdoutData "[1, \"payload-b\"]",
   .timer 0, .timer 1]

/-- One call is issued and then the worker exits while it is pending. -/
def demoTraceClose : List PythonService.Event :=
  [.appReady, .send "a", .closeEvt 1]

/-- One call is issued and no response frame ever arrives; only the mock
timer fires. -/
def demoTraceNoReply : List PythonService.Event :=
  [.appReady, .send "a", .timer 0]

/-- A service state with a live worker handle `7` and no calls. -/
def demoLiveState : PythonService.State := ⟨some 7, 8, [], 0⟩

/-- A service state with a live worker and one pending call. -/
def demoPendingState : PythonService.State := ⟨some 7, 8, [⟨0, "a", .pending⟩], 1⟩


/-- The call of `demoTrace` issued with action `a`, as resolved by its timer. -/
def demoResolvedA : PythonService.Pending :=
  ⟨0, "a", .resolvedP (PythonService.mockResponse "a")⟩

/-- A call that is still pending. -/
def demoPendingA : PythonService.Pending := ⟨0, "a", .pending⟩

namespace PythonService

/-- Invariant over reachable service states: every issued call is still
pending or has been resolved with the fixed mock object for its action —
in particular no call is ever rejected, and no resolution value depends on
worker output. -/
def CallsInv (s : State) : Prop :=
  ∀ p ∈ s.calls, p.st = .pending ∨ p.st = .resolvedP (mockResponse p.action)

end PythonService

/-!
Helper lemmas about the service semantics.
-/

namespace PythonService

theorem callsInv_init : CallsInv initState := by
  intro p hp
  cases hp

theorem fireTimer_cases (pid : Nat) (q : Pending)
    (h : q.st = .pending ∨ q.st = .resolvedP (mockResponse q.action)) :
    (fireTimer pid q).st = .pending ∨
      (fireTimer pid q).st = .resolvedP (mockResponse (fireTimer pid q).action) := by
  obtain ⟨qp, qa, qst⟩ := q
  cases qst with
  | pending =>
    simp only [fireTimer]
    split
    · right; rfl
    · left; rfl
  | resolvedP v =>
    rcases h with h | h
    · exact absurd h (by simp)
    · simp only [fireTimer]
      right
      exact h
  | rejectedP m =>
    rcases h with h | h
    · exact absurd h (by simp)
    · exact absurd h (by simp)

theorem callsInv_step (s : State) (e : Event) (h : CallsInv s) :
    CallsInv (step s e).1 := by
  cases e with
  | appReady => exact fun p hp => h p hp
  | send a =>
    intro p hp
    cases hpp : s.pythonProcess with
    | some hh =>
      simp only [step, hpp] at hp
      rcases List.mem_append.mp hp with h1 | h1
      · exact h p h1
      · rw [List.mem_singleton.mp h1]
        exact Or.inl rfl
    | none =>
      simp only [step, hpp] at hp
      rcases List.mem_append.mp hp with h1 | h1
      · exact h p h1
      · rw [List.mem_singleton.mp h1]
        exact Or.inl rfl
  | stdoutData c => exact fun p hp => h p hp
  | closeEvt code => exact fun p hp => h p hp
  | timer pid =>
    intro p hp
    simp only [step] at hp
    rcases List.mem_map.mp hp with ⟨q, hq, rfl⟩
    exact fireTimer_cases pid q (h q hq)
  | stopEvt =>
    intro p hp
    cases hpp : s.pythonProcess with
    | some hh =>
      simp only [step, hpp] at hp
      exact h p hp
    | none =>
      simp only [step, hpp] at hp
      exact h p hp

theorem callsInv_run (es : List Event) :
    ∀ s, CallsInv s → CallsInv (run s es).1 := by
  induction es with
  | nil => exact fun s h => h
  | cons e rest ih => exact fun s h => ih _ (callsInv_step s e h)

theorem handle_step (s : State) (e : Event) (hc : e.isClose = false)
    (hs : e.isStop = false) (h : s.pythonProcess.isSome = true) :
    ((step s e).1.pythonProcess).isSome = true := by
  cases e with
  | appReady => rfl
  | send a =>
    cases hpp : s.pythonProcess with
    | some hh => simp [step, hpp]
    | none => rw [hpp] at h; cases h
  | stdoutData c => exact h
  | closeEvt code => simp [Event.isClose] at hc
  | timer pid => exact h
  | stopEvt => simp [Event.isStop] at hs

theorem handle_run (es : List Event) :
    ∀ s, (∀ e ∈ es, e.isClose = false ∧ e.isStop = false) →
      s.pythonProcess.isSome = true →
      ((run s es).1.pythonProcess).isSome = true := by
  induction es with
  | nil => exact fun s _ h => h
  | cons e rest ih =>
    intro s hall h
    have he := hall e (List.mem_cons_self e rest)
    exact ih _ (fun e' he' => hall e' (List.mem_cons_of_mem e he'))
      (handle_step s e he.1 he.2 h)

end PythonService

/-!
Claim theorems.
-/

/-- C1: the stub correlator never correlates.  Along every event sequence
(every set of concurrent `sendToPython` calls, every arrival order of worker
stdout frames), a call whose promise has resolved always resolved with the
fixed mock object built from its own action argument — the resolution value
carries no payload from any response frame, contradicting the claim that a
call resolves with the payload of the frame bearing its correlation
identifier (the stub assigns no identifiers at all). -/
theorem sendToPython_resolves_with_fixed_mock
    (tr : List PythonService.Event) (p : PythonService.Pending) (v : JsValue)
    (hmem : p ∈ (PythonService.run PythonService.initState tr).1.calls)
    (hres : p.st = .resolvedP v) :
    v = PythonService.mockResponse p.action := by
  rcases PythonService.callsInv_run tr PythonService.initState
      PythonService.callsInv_init p hmem with h | h
  · rw [hres] at h
    exact PythonService.PromState.noConfusion h
  · rw [hres] at h
    injection h with h'

theorem sendToPython_resolves_with_fixed_mock_witness :
    demoResolvedA ∈ (PythonService.run PythonService.initState demoTrace).1.calls ∧
    PythonService.mockResponse "a" = PythonService.mockResponse demoResolvedA.action := by
  have hm : demoResolvedA ∈
      (PythonService.run PythonService.initState demoTrace).1.calls := by
    rw [show (PythonService.run PythonService.initState demoTrace).1.calls =
        [demoResolvedA,
         ⟨1, "b", .resolvedP (PythonService.mockResponse "b")⟩] from rfl]
    exact List.mem_cons_self _ _
  exact ⟨hm, sendToPython_resolves_with_fixed_mock demoTrace demoResolvedA
    (PythonService.mockResponse "a") hm rfl⟩

/-- C2: `electronAPI.invoke` gates every call on the fixed whitelist: a
non-whitelisted channel fails immediately with the invalid-channel error and
performs no effect whatsoever (no IPC forwarding, hence nothing host-side —
no spawn, no file access, no correlator registration); a whitelisted channel
is forwarded to the host over `ipcRenderer.invoke`. -/
theorem invoke_gates_on_whitelist (channel : String) (data : JsValue) :
    (channel ∉ validChannels →
      ElectronAPI.invoke channel data =
        ([], .error ("Invalid channel: " ++ channel))) ∧
    (channel ∈ validChannels →
      ElectronAPI.invoke channel data =
        ([.ipcForward channel data], .ok ())) := by
  constructor
  · intro h
    simp [ElectronAPI.invoke, h]
  · intro h
    simp [ElectronAPI.invoke, h]

theorem invoke_gates_on_whitelist_witness :
    ("dump-secrets" ∉ validChannels ∧
      ElectronAPI.invoke "dump-secrets" .null =
        ([], .error ("Invalid channel: " ++ "dump-secrets"))) ∧
    ("health-check" ∈ validChannels ∧
      ElectronAPI.invoke "health-check" .null =
        ([.ipcForward "health-check" .null], .ok ())) := by
  have h1 : "dump-secrets" ∉ validChannels := by decide
  have h2 : "health-check" ∈ validChannels := by decide
  exact ⟨⟨h1, (invoke_gates_on_whitelist "dump-secrets" .null).1 h1⟩,
         ⟨h2, (invoke_gates_on_whitelist "health-check" .null).2 h2⟩⟩

/-- C3: on an unexpected worker exit the close handler only clears the
process handle (so the supervisor does report not-running), while every call
pending at that moment is left untouched — and along every event sequence no
call is ever rejected at all, so no pending call is ever rejected with
WorkerTerminated, contradicting the claim. -/
theorem worker_exit_keeps_pending_calls :
    (∀ (s : PythonService.State) (code : Int),
        (PythonService.step s (.closeEvt code)).1.pythonProcess = none ∧
        (PythonService.step s (.closeEvt code)).1.calls = s.calls) ∧
    (∀ (tr : List PythonService.Event) (p : PythonService.Pending) (m : String),
        p ∈ (PythonService.run PythonService.initState tr).1.calls →
        p.st ≠ .rejectedP m) := by
  constructor
  · exact fun s code => ⟨rfl, rfl⟩
  · intro tr p m hmem hcon
    rcases PythonService.callsInv_run tr PythonService.initState
        PythonService.callsInv_init p hmem with h | h
    · rw [hcon] at h
      exact PythonService.PromState.noConfusion h
    · rw [hcon] at h
      exact PythonService.PromState.noConfusion h

theorem worker_exit_keeps_pending_calls_witness :
    demoPendingA ∈
      (PythonService.run PythonService.initState demoTraceClose).1.calls ∧
    (PythonService.run PythonService.initState demoTraceClose).1.pythonProcess = none ∧
    demoPendingA.st ≠ .rejectedP "WorkerTerminated" := by
  have hm : demoPendingA ∈
      (PythonService.run PythonService.initState demoTraceClose).1.calls := by
    rw [show (PythonService.run PythonService.initState demoTraceClose).1.calls =
        [demoPendingA] from rfl]
    exact List.mem_cons_self _ _
  exact ⟨hm, rfl,
    worker_exit_keeps_pending_calls.2 demoTraceClose demoPendingA "WorkerTerminated" hm⟩

/-- C4: a `sendToPython` request arriving while a worker handle is live never
spawns: the step keeps the existing handle and its only effects are the
stdin write to that same handle (the guard
`if (!this.pythonProcess) await this.start()` skips `start()`).  The state
holds at most one handle by construction (`pythonProcess : Option Nat`). -/
theorem send_with_live_worker_no_spawn
    (s : PythonService.State) (a : String) (h : Nat)
    (hlive : s.pythonProcess = some h) :
    (PythonService.step s (.send a)).1.pythonProcess = some h ∧
    (PythonService.step s (.send a)).2 = [.stdinWrite h a] := by
  simp [PythonService.step, hlive]

theorem send_with_live_worker_no_spawn_witness :
    demoLiveState.pythonProcess = some 7 ∧
    (PythonService.step demoLiveState (.send "ping")).1.pythonProcess = some 7 ∧
    (PythonService.step demoLiveState (.send "ping")).2 = [.stdinWrite 7 "ping"] := by
  have h := send_with_live_worker_no_spawn demoLiveState "ping" 7 rfl
  exact ⟨rfl, h.1, h.2⟩

/-- C5: a stdout chunk that `JSON.parse` rejects is logged as diagnostic
output and nothing else: the decode step is a total function (it cannot
throw), the service state — in particular every pending call — is left
exactly as it was, so the stream keeps being processed and no call is
resolved or rejected by the malformed line. -/
theorem malformed_stdout_is_diagnostic
    (s : PythonService.State) (chunk : String)
    (hbad : jsonParse chunk = none) :
    PythonService.step s (.stdoutData chunk) = (s, [.logDiagnostic chunk]) := by
  simp [PythonService.step, hbad]

theorem malformed_stdout_is_diagnostic_witness :
    jsonParse "hello from python" = none ∧
    PythonService.step demoPendingState (.stdoutData "hello from python") =
      (demoPendingState, [.logDiagnostic "hello from python"]) :=
  ⟨rfl, malformed_stdout_is_diagnostic demoPendingState "hello from python" rfl⟩

/-- C6: the stub carries no deadlines and no correlation identifiers: along
every event sequence no call is ever rejected with RequestTimeout (or with
anything else); a call whose response never arrives instead leaves the
pending state only by being resolved with the fixed mock object when its
100 ms timer fires — contradicting the claimed deadline/timeout policy. -/
theorem no_deadline_no_request_timeout
    (tr : List PythonService.Event) (p : PythonService.Pending)
    (hmem : p ∈ (PythonService.run PythonService.initState tr).1.calls) :
    p.st ≠ .rejectedP "RequestTimeout" ∧
    (p.st ≠ .pending → p.st = .resolvedP (PythonService.mockResponse p.action)) := by
  rcases PythonService.callsInv_run tr PythonService.initState
      PythonService.callsInv_init p hmem with h | h
  · constructor
    · rw [h]; exact fun hc => PythonService.PromState.noConfusion hc
    · intro hne; exact absurd h hne
  · constructor
    · rw [h]; exact fun hc => PythonService.PromState.noConfusion hc
    · exact fun _ => h

theorem no_deadline_no_request_timeout_witness :
    demoResolvedA ∈
      (PythonService.run PythonService.initState demoTraceNoReply).1.calls ∧
    (demoResolvedA.st ≠ .rejectedP "RequestTimeout" ∧
     (demoResolvedA.st ≠ .pending →
       demoResolvedA.st = .resolvedP (PythonService.mockResponse demoResolvedA.action))) := by
  have hm : demoResolvedA ∈
      (PythonService.run PythonService.initState demoTraceNoReply).1.calls := by
    rw [show (PythonService.run PythonService.initState demoTraceNoReply).1.calls =
        [demoResolvedA] from rfl]
    exact List.mem_cons_self _ _
  exact ⟨hm, no_deadline_no_request_timeout demoTraceNoReply demoResolvedA hm⟩

/-- C7: the startup check that fires after the 1000 ms wait budget resolves
`true` whenever the spawned process is still observed alive (its handle was
not cleared by a close event during the budget, whatever other events were
processed), and rejects with the startup error whenever the process exited
within the budget (the close event cleared the handle). -/
theorem startCheck_observes_liveness :
    (∀ (s : PythonService.State) (es : List PythonService.Event),
        s.pythonProcess.isSome = true →
        (∀ e ∈ es, e.isClose = false ∧ e.isStop = false) →
        PythonService.startCheck (PythonService.run s es).1 = .ok true) ∧
    (∀ (s : PythonService.State) (code : Int),
        PythonService.startCheck (PythonService.step s (.closeEvt code)).1 =
          .error "Failed to start Python process") := by
  constructor
  · intro s es hlive hall
    have hs := PythonService.handle_run es s hall hlive
    cases hpp : (PythonService.run s es).1.pythonProcess with
    | some hh => simp [PythonService.startCheck, hpp]
    | none => rw [hpp] at hs; cases hs
  · exact fun s code => rfl

theorem startCheck_observes_liveness_witness :
    PythonService.startCheck
      (PythonService.run demoLiveState [.stdoutData "ready", .timer 0]).1 =
      .ok true :=
  startCheck_observes_liveness.1 demoLiveState [.stdoutData "ready", .timer 0]
    rfl (by decide)

/-- C8: invoking `preview-file` on an existing file whose content splits into
eleven non-blank lines (a header line plus ten data lines) resolves with
exactly ten preview rows, the cleaned header names as `columns`, and
`rows_total = 10`. -/
theorem preview_of_eleven_line_csv
    (fs : String → Option String) (p content hdr : String) (rest : List String)
    (hp : p ≠ "") (hfs : fs p = some content)
    (hsplit : splitContentLines content = hdr :: rest)
    (hlen : rest.length = 10) :
    ∃ rows, previewFileHandler fs (some p) =
        .resolved (previewObj rows (parseCsvLine hdr) 10) ∧
      rows.length = 10 := by
  refine ⟨(rest.take (min 10 rest.length)).map
      (fun l => rowToJs (mkRow (parseCsvLine hdr) (parseCsvLine l))), ?_, ?_⟩
  · simp [previewFileHandler, previewBody, hp, hfs, hsplit, hlen]
  · simp [hlen]

theorem preview_of_eleven_line_csv_witness :
    ∃ rows, previewFileHandler demoFs (some "data.csv") =
        .resolved (previewObj rows (parseCsvLine "a,b") 10) ∧
      rows.length = 10 :=
  preview_of_eleven_line_csv demoFs "data.csv" demoCsv "a,b" demoCsvRest
    (by decide) rfl rfl rfl

/-- C9: invoking `preview-file` with a path that does not exist resolves
(never rejects) with exactly the object carrying
`error = "File does not exist"`. -/
theorem preview_missing_file_resolves_error
    (fs : String → Option String) (p : String)
    (hp : p ≠ "") (hfs : fs p = none) :
    previewFileHandler fs (some p) = .resolved (errObj "File does not exist") := by
  simp [previewFileHandler, previewBody, hp, hfs]

theorem preview_missing_file_resolves_error_witness :
    previewFileHandler demoFs (some "missing.csv") =
      .resolved (errObj "File does not exist") :=
  preview_missing_file_resolves_error demoFs "missing.csv" (by decide) rfl

/-- C10: the four registered handlers `health-check`, `ping-python`,
`preview-file` and `import-data` resolve on every input — each wraps its
whole body in try/catch — and whenever the body throws, the resolved object
embeds exactly the thrown human-readable message in its error field
(`health-check` in its `{status:'error', ...}` shape, the others as
`{error: message}`). -/
theorem handlers_resolve_and_embed_errors
    (ensure : Except String Unit) (dbExists : Bool) (stat : Except String Int)
    (now version dbPath : String) (fs : String → Option String)
    (filePath : Option String) (symbol : JsValue) :
    (∃ v, healthCheckHandler ensure dbExists stat now version dbPath = .resolved v) ∧
    (∀ m, healthBody ensure dbExists stat now version dbPath = .error m →
        healthCheckHandler ensure dbExists stat now version dbPath =
          .resolved (healthErrObj m now version)) ∧
    (∃ v, pingPythonHandler ensure = .resolved v) ∧
    (∀ m, PythonService.sendToPythonResult ensure "ping" = .error m →
        pingPythonHandler ensure = .resolved (errObj m)) ∧
    (∃ v, previewFileHandler fs filePath = .resolved v) ∧
    (∀ m, previewBody fs filePath = .error m →
        previewFileHandler fs filePath = .resolved (errObj m)) ∧
    (∃ v, importDataHandler ensure fs filePath symbol = .resolved v) ∧
    (∀ m, importBody ensure fs filePath symbol = .error m →
        importDataHandler ensure fs filePath symbol = .resolved (errObj m)) := by
  refine ⟨⟨_, rfl⟩, ?_, ⟨_, rfl⟩, ?_, ⟨_, rfl⟩, ?_, ⟨_, rfl⟩, ?_⟩
  · intro m hm
    simp [healthCheckHandler, hm]
  · intro m hm
    simp [pingPythonHandler, hm]
  · intro m hm
    simp [previewFileHandler, hm]
  · intro m hm
    simp [importDataHandler, hm]

theorem handlers_resolve_and_embed_errors_witness :
    previewBody demoFs (some "missing.csv") = .error "File does not exist" ∧
    previewFileHandler demoFs (some "missing.csv") =
      .resolved (errObj "File does not exist") := by
  have hb : previewBody demoFs (some "missing.csv") =
      .error "File does not exist" := rfl
  exact ⟨hb, (handlers_resolve_and_embed_errors (.ok ()) true (.ok 0) "t" "v" "p"
    demoFs (some "missing.csv") .null).2.2.2.2.2.1 "File does not exist" hb⟩

/-!
Evaluation checks on the concrete inputs.
-/

example : splitContentLines demoCsv = "a,b" :: demoCsvRest := rfl
example : (jsonParse "[1, \"payload-a\"]").isSome = true := rfl
example : (jsonParse "Traceback (most recent call last):").isNone = true := rfl
example : (PythonService.run PythonService.initState demoTraceClose).1.pythonProcess = none := rfl
